import Mathlib

/-!
Verification of the avail client SDK layer (avail-js): the Account façade,
the SDK constructor and, where the component source is not part of the
visible repository, models of the Transactions / Utils components built
from the specification's contracts.

Embedding conventions:
* polkadot BN values are arbitrary-precision unsigned integers, embedded as Nat;
* the TypeScript classes become Lean structures, in-place mutation becomes
  explicit state passing (a mutator returns the updated Account);
* asynchronous calls whose outcome depends on the chain are embedded as pure
  functions over an explicit chain-response / chain-state argument;
* the neverthrow Result type is embedded as a two-constructor inductive.
-/

set_option linter.unusedVariables false

namespace Avail

/-- The neverthrow Result union: a success value or a failure value. -/
inductive Result (T E : Type) where
  | ok (value : T)
  | err (error : E)
deriving DecidableEq, Repr

def Result.isOk {T E : Type} : Result T E → Bool
  | .ok _ => true
  | .err _ => false

def Result.isErr {T E : Type} : Result T E → Bool
  | .ok _ => false
  | .err _ => true

/-- A 256-bit hash, kept abstract as a wrapped value. -/
structure H256 where
  value : Nat
deriving DecidableEq, Repr

/-- The avail-js WaitFor enum. -/
inductive WaitFor where
  | BlockInclusion
  | BlockFinalization
deriving DecidableEq, Repr

/-- A signing keypair, kept abstract: only the address is observable here. -/
structure KeyringPair where
  address : String
deriving DecidableEq, Repr

/-- TransactionOptions from transactions/common: optional nonce, app id, tip. -/
structure TransactionOptions where
  nonce : Option Nat
  app_id : Option Nat
  tip : Option Nat
deriving DecidableEq, Repr

/-- The empty TransactionOptions object: no field set. -/
def TransactionOptions.empty : TransactionOptions :=
  { nonce := none, app_id := none, tip := none }

/-- A decoded runtime event: its kind tag, and for data-submission events the
reported length of the submitted data. -/
structure Event where
  kind : String
  dataLength : Option Nat
deriving DecidableEq, Repr

/-- TxResultDetails: block hash, transaction hash and decoded events of a
transaction observed in a block. -/
structure TxResultDetails where
  txHash : H256
  blockHash : H256
  events : List Event
deriving DecidableEq, Repr

/-- Modelled from the spec: TransactionFailed carries a human-readable reason
and any partially known hashes. -/
structure TransactionFailed where
  reason : String
  txHash : Option H256
  blockHash : Option H256
deriving DecidableEq, Repr

/-- Modelled from the spec: findFirstEvent on a transaction result returns the
first decoded event of the requested kind, and a null indicator when no event
of that kind is present (part_002 branches on event != null). -/
def TxResultDetails.findFirstEvent (d : TxResultDetails) (kind : String) : Option Event :=
  d.events.find? (fun e => e.kind == kind)

/-- The terminal chain outcome observed by the Submission and Confirmation
Tracker for one submitted transaction: either the transaction is seen in a
block (with its emitted events), or a definitive failure is reported. -/
inductive ChainResponse where
  | included (blockHash : H256) (txHash : H256) (events : List Event)
  | failure (reason : String) (txHash : Option H256) (blockHash : Option H256)
deriving DecidableEq, Repr

/-- Modelled from the spec: the Submission and Confirmation Tracker maps a
single submission attempt to a single terminal outcome: on terminal success a
TxResultDetails with block hash, transaction hash and decoded events; on
terminal failure a TransactionFailed with reason and partial hashes. -/
def trackSubmission (resp : ChainResponse) : Result TxResultDetails TransactionFailed :=
  match resp with
  | .included blockHash txHash events =>
      .ok { txHash := txHash, blockHash := blockHash, events := events }
  | .failure reason txHash blockHash =>
      .err { reason := reason, txHash := txHash, blockHash := blockHash }

/-- The node connection (ApiPromise): one connection per identifier, tagged
with the endpoint it was opened for. -/
structure ApiPromise where
  connId : Nat
  endpoint : String
deriving DecidableEq, Repr

/-- The connection-allocation state: the next fresh connection identifier. -/
structure ConnState where
  nextConnId : Nat
deriving DecidableEq, Repr

/-- Modelled from the spec: the Connection Manager contract
connect(endpoint) -> Connection (the chain module that index.ts calls to
build the ApiPromise is not part of the visible sources); each call opens
exactly one new connection. -/
def connect (endpoint : String) (st : ConnState) : ApiPromise × ConnState :=
  ({ connId := st.nextConnId, endpoint := endpoint }, { nextConnId := st.nextConnId + 1 })

/-- The balances transaction sub-component, holding the shared connection. -/
structure Balances where
  api : ApiPromise
deriving DecidableEq, Repr

/-- The dataAvailability transaction sub-component, holding the shared
connection. -/
structure DataAvailability where
  api : ApiPromise
deriving DecidableEq, Repr

/-- The Transactions component: holds the connection and the per-pallet
sub-components (modelled from the spec, the transactions module is not among
the visible sources; the deno variant part_004 shows it is built from the
single api). -/
structure Transactions where
  api : ApiPromise
  balances : Balances
  dataAvailability : DataAvailability
deriving DecidableEq, Repr

def Transactions.new (api : ApiPromise) : Transactions :=
  { api := api, balances := { api := api }, dataAvailability := { api := api } }

/-- The Utils component, holding the shared connection. -/
structure Utils where
  api : ApiPromise
deriving DecidableEq, Repr

def Utils.new (api : ApiPromise) : Utils :=
  { api := api }

/-- The SDK class of avail-js/src/sdk/index.ts. -/
structure SDK where
  api : ApiPromise
  tx : Transactions
  util : Utils
deriving DecidableEq, Repr

/-- The private SDK constructor: stores the api and builds Transactions and
Utils on that same api. -/
def SDK.make (api : ApiPromise) : SDK :=
  { api := api, tx := Transactions.new api, util := Utils.new api }

/-- SDK.New: open one connection for the endpoint and construct the SDK on it. -/
def SDK.New (endpoint : String) (st : ConnState) : SDK × ConnState :=
  let r := connect endpoint st
  (SDK.make r.1, r.2)

/-- SDK.oneAvail: new BN(10).pow(new BN(18)). -/
def SDK.oneAvail : Nat := 10 ^ 18

/-- Modelled from the spec: transferKeepAlive submits a signed balance
transfer and tracks it to a terminal outcome (the balances transaction module
is not among the visible sources). -/
def Balances.transferKeepAlive (b : Balances) (dest : String) (value : Nat)
    (waitFor : WaitFor) (keyring : KeyringPair) (options : TransactionOptions)
    (resp : ChainResponse) : Result TxResultDetails TransactionFailed :=
  trackSubmission resp

/-- Modelled from the spec: fire-and-forget transfer: sign and submit, return
the node-assigned submission hash without subscribing for inclusion. -/
def Balances.transferKeepAliveNoWait (b : Balances) (dest : String) (value : Nat)
    (keyring : KeyringPair) (options : TransactionOptions)
    (submissionHash : H256) : H256 :=
  submissionHash

/-- Modelled from the spec: submitData submits a signed data-availability
submission and tracks it to a terminal outcome. -/
def DataAvailability.submitData (d : DataAvailability) (data : String)
    (waitFor : WaitFor) (keyring : KeyringPair) (options : TransactionOptions)
    (resp : ChainResponse) : Result TxResultDetails TransactionFailed :=
  trackSubmission resp

/-- Modelled from the spec: fire-and-forget submitData: returns the
submission hash immediately without confirmation. -/
def DataAvailability.submitDataNoWait (d : DataAvailability) (data : String)
    (keyring : KeyringPair) (options : TransactionOptions)
    (submissionHash : H256) : H256 :=
  submissionHash

/-- Modelled from the spec: createApplicationKey submits a signed
application-key creation and tracks it to a terminal outcome. -/
def DataAvailability.createApplicationKey (d : DataAvailability) (key : String)
    (waitFor : WaitFor) (keyring : KeyringPair) (options : TransactionOptions)
    (resp : ChainResponse) : Result TxResultDetails TransactionFailed :=
  trackSubmission resp

/-- Modelled from the spec: fire-and-forget createApplicationKey: returns the
submission hash immediately without confirmation. -/
def DataAvailability.createApplicationKeyNoWait (d : DataAvailability) (key : String)
    (keyring : KeyringPair) (options : TransactionOptions)
    (submissionHash : H256) : H256 :=
  submissionHash

/-- The Account class of avail-js/src/sdk/account.ts: a keypair, the SDK, and
the mutable bundle of stored defaults. -/
structure Account where
  sdk : SDK
  keyring : KeyringPair
  waitFor : WaitFor
  nonce : Option Nat
  appId : Option Nat
  tip : Option Nat
deriving DecidableEq, Repr

/-- The Account constructor with the field initializers of the source:
waitFor = WaitFor.BlockInclusion, nonce = appId = tip = null. -/
def Account.new (sdk : SDK) (keyring : KeyringPair) : Account :=
  { sdk := sdk, keyring := keyring, waitFor := WaitFor.BlockInclusion,
    nonce := none, appId := none, tip := none }

def Account.setNonce (a : Account) (value : Option Nat) : Account :=
  { a with nonce := value }

def Account.setAppId (a : Account) (value : Option Nat) : Account :=
  { a with appId := value }

def Account.setTip (a : Account) (value : Option Nat) : Account :=
  { a with tip := value }

def Account.setWaitFor (a : Account) (value : WaitFor) : Account :=
  { a with waitFor := value }

def Account.address (a : Account) : String :=
  a.keyring.address

/-- Account.buildOptions: start from the empty options object and copy each
stored default into it only when it is non-null. -/
def Account.buildOptions (a : Account) : TransactionOptions :=
  let options : TransactionOptions := TransactionOptions.empty
  let options := match a.nonce with
    | some v => { options with nonce := some v }
    | none => options
  let options := match a.appId with
    | some v => { options with app_id := some v }
    | none => options
  let options := match a.tip with
    | some v => { options with tip := some v }
    | none => options
  options

/-- The spec's reading of the merged options passed downstream: exactly the
stored nonce, application id and tip defaults of the Account. -/
def Account.specStoredOptions (a : Account) : TransactionOptions :=
  { nonce := a.nonce, app_id := a.appId, tip := a.tip }

def Account.balanceTransfer (a : Account) (dest : String) (value : Nat)
    (resp : ChainResponse) : Result TxResultDetails TransactionFailed :=
  a.sdk.tx.balances.transferKeepAlive dest value a.waitFor a.keyring a.buildOptions resp

def Account.balanceTransferNoWait (a : Account) (dest : String) (value : Nat)
    (submissionHash : H256) : H256 :=
  a.sdk.tx.balances.transferKeepAliveNoWait dest value a.keyring a.buildOptions submissionHash

def Account.submitData (a : Account) (data : String)
    (resp : ChainResponse) : Result TxResultDetails TransactionFailed :=
  a.sdk.tx.dataAvailability.submitData data a.waitFor a.keyring a.buildOptions resp

def Account.submitDataNoWait (a : Account) (data : String)
    (submissionHash : H256) : H256 :=
  a.sdk.tx.dataAvailability.submitDataNoWait data a.keyring a.buildOptions submissionHash

def Account.createApplicationKey (a : Account) (key : String)
    (resp : ChainResponse) : Result TxResultDetails TransactionFailed :=
  a.sdk.tx.dataAvailability.createApplicationKey key a.waitFor a.keyring a.buildOptions resp

def Account.createApplicationKeyNoWait (a : Account) (key : String)
    (submissionHash : H256) : H256 :=
  a.sdk.tx.dataAvailability.createApplicationKeyNoWait key a.keyring a.buildOptions submissionHash

def Account.oneAvail (a : Account) : Nat :=
  SDK.oneAvail

/-! Read-only utility queries.  The utils module is not among the visible
sources; the queries are modelled from the spec as direct reads of the chain
state over the connection, failing only when the connection is down. -/

/-- The account record held in system storage (api.query.system.account). -/
structure AccountData where
  free : Nat
  reserved : Nat
  frozen : Nat
  flags : Nat
deriving DecidableEq, Repr

/-- AccountBalance as returned by Account.getBalance. -/
structure AccountBalance where
  free : Nat
  reserved : Nat
  frozen : Nat
  flags : Nat
deriving DecidableEq, Repr

/-- The only failure of a read-only query: the connection is unavailable. -/
inductive ConnError where
  | disconnected
deriving DecidableEq, Repr

/-- The chain state visible to read-only queries: system account records,
the nonce as seen by runtime state, the nonce as seen by the node's pending
pool, and the application keys (name, id) owned by each address. -/
structure ChainState where
  systemAccount : String → AccountData
  stateNonce : String → Nat
  nodeNonce : String → Nat
  appKeysOf : String → List (String × Nat)

/-- A live connection: its liveness flag and the chain state it reads. -/
structure Connection where
  up : Bool
  state : ChainState

/-- Modelled from the spec: sdkUtil.getNonceState reads the account nonce as
seen by runtime state; read-only, fails only on connection error. -/
def getNonceState (c : Connection) (addr : String) : Except ConnError Nat × Connection :=
  if c.up then (Except.ok (c.state.stateNonce addr), c)
  else (Except.error ConnError.disconnected, c)

/-- Modelled from the spec: sdkUtil.getNonceNode reads the account nonce as
seen by the node's pending pool; read-only, fails only on connection error. -/
def getNonceNode (c : Connection) (addr : String) : Except ConnError Nat × Connection :=
  if c.up then (Except.ok (c.state.nodeNonce addr), c)
  else (Except.error ConnError.disconnected, c)

/-- Modelled from the spec: sdkUtil.getAppKeys lists the application keys
owned by an address; read-only, fails only on connection error. -/
def getAppKeys (c : Connection) (addr : String) :
    Except ConnError (List (String × Nat)) × Connection :=
  if c.up then (Except.ok (c.state.appKeysOf addr), c)
  else (Except.error ConnError.disconnected, c)

/-- Modelled from the spec: sdkUtil.getAppIds lists the application ids owned
by an address; read-only, fails only on connection error. -/
def getAppIds (c : Connection) (addr : String) :
    Except ConnError (List Nat) × Connection :=
  if c.up then (Except.ok ((c.state.appKeysOf addr).map Prod.snd), c)
  else (Except.error ConnError.disconnected, c)

/-- Account.getBalance: reads api.query.system.account for the keyring
address and repacks the four balance fields; read-only. -/
def Account.getBalance (a : Account) (c : Connection) :
    Except ConnError AccountBalance × Connection :=
  if c.up then
    let r := c.state.systemAccount a.keyring.address
    (Except.ok { free := r.free, reserved := r.reserved, frozen := r.frozen, flags := r.flags }, c)
  else (Except.error ConnError.disconnected, c)

/-! Call encoding and event decoding for data submissions.  The Transaction
Builder and the event decoder are not among the visible sources; they are
modelled from the spec: build(pallet, method, args) -> EncodedCall, and a
successful submission emits a data-submitted event whose reported length is
the length of the submitted data. -/

/-- The runtime index of the data-availability pallet in the call encoding. -/
def daPalletIndex : Nat := 29

/-- The call index of submitData within the data-availability pallet. -/
def submitDataCallIndex : Nat := 1

/-- The event-kind tag of the data-submitted event. -/
def dataSubmittedKind : String := "DataAvailability.DataSubmitted"

/-- Four-byte little-endian encoding of a length. -/
def encodeLen (n : Nat) : List Nat :=
  [n % 256, n / 256 % 256, n / 65536 % 256, n / 16777216 % 256]

/-- Modelled from the spec: the Transaction Builder encoding of a
dataAvailability.submitData call: pallet index, call index, the byte length
of the data, then the data bytes. -/
def encodeSubmitData (data : List Nat) : List Nat :=
  daPalletIndex :: submitDataCallIndex :: (encodeLen data.length ++ data)

/-- Modelled from the spec: decoding an encoded submitData call back into the
submitted data; fails on a call-schema mismatch (EncodingError). -/
def decodeSubmitData (bytes : List Nat) : Option (List Nat) :=
  match bytes with
  | p :: c :: b0 :: b1 :: b2 :: b3 :: rest =>
      if p = daPalletIndex ∧ c = submitDataCallIndex then
        if rest.length = b0 + 256 * b1 + 65536 * b2 + 16777216 * b3 then some rest
        else none
      else none
  | _ => none

/-- Modelled from the spec: the data-submitted event the runtime emits for a
successful submission: the chain decodes the submitted call and reports the
length of the decoded data. -/
def daEmittedEvent (bytes : List Nat) : Option Event :=
  (decodeSubmitData bytes).map (fun d => { kind := dataSubmittedKind, dataLength := some d.length })

/-! Helper lemmas. -/

theorem buildOptions_nonce (a : Account) : a.buildOptions.nonce = a.nonce := by
  rcases a with ⟨s, k, w, n, i, t⟩
  cases n <;> cases i <;> cases t <;> rfl

theorem buildOptions_app_id (a : Account) : a.buildOptions.app_id = a.appId := by
  rcases a with ⟨s, k, w, n, i, t⟩
  cases n <;> cases i <;> cases t <;> rfl

theorem buildOptions_tip (a : Account) : a.buildOptions.tip = a.tip := by
  rcases a with ⟨s, k, w, n, i, t⟩
  cases n <;> cases i <;> cases t <;> rfl

theorem buildOptions_eq_spec (a : Account) : a.buildOptions = a.specStoredOptions := by
  rcases a with ⟨s, k, w, n, i, t⟩
  cases n <;> cases i <;> cases t <;> rfl

theorem find?_eq_filter_head {α : Type} (p : α → Bool) (l : List α) :
    l.find? p = (l.filter p).head? := by
  induction l with
  | nil => rfl
  | cons x xs ih =>
    cases hx : p x with
    | true => rw [List.find?_cons_of_pos _ hx, List.filter_cons_of_pos hx, List.head?_cons]
    | false =>
      have hx' : ¬ p x = true := by simp [hx]
      rw [List.find?_cons_of_neg _ hx', List.filter_cons_of_neg hx', ih]

/-- Whether a read-only query outcome is a success. -/
def queryOk {α : Type} : Except ConnError α → Bool
  | .ok _ => true
  | .error _ => false

/-! Claim theorems. -/

/-- C1: Every submission operation with a wait policy (Account.balanceTransfer,
Account.submitData, Account.createApplicationKey) returns exactly one of a
success value or a TransactionFailed value: for every terminal chain outcome
the result is ok or err, never both, never an uncaught fault, so the caller
can branch on the outcome. -/
theorem submit_result_exclusive (a : Account) (dest : String) (value : Nat)
    (data : String) (key : String) (resp : ChainResponse) :
    (((a.balanceTransfer dest value resp).isOk = true ∧
        (a.balanceTransfer dest value resp).isErr = false) ∨
      ((a.balanceTransfer dest value resp).isOk = false ∧
        (a.balanceTransfer dest value resp).isErr = true)) ∧
    (((a.submitData data resp).isOk = true ∧ (a.submitData data resp).isErr = false) ∨
      ((a.submitData data resp).isOk = false ∧ (a.submitData data resp).isErr = true)) ∧
    (((a.createApplicationKey key resp).isOk = true ∧
        (a.createApplicationKey key resp).isErr = false) ∨
      ((a.createApplicationKey key resp).isOk = false ∧
        (a.createApplicationKey key resp).isErr = true)) := by
  cases resp <;>
    simp [Account.balanceTransfer, Account.submitData, Account.createApplicationKey,
      Balances.transferKeepAlive, DataAvailability.submitData,
      DataAvailability.createApplicationKey, trackSubmission, Result.isOk, Result.isErr]

/-- C2: Every no-wait submission (Account.balanceTransferNoWait,
Account.submitDataNoWait, Account.createApplicationKeyNoWait) returns exactly
the node-assigned submission hash (H256), with no confirmation result, no
event list and no block hash: the returned value is the submission hash the
node acknowledged, untouched by any inclusion tracking. -/
theorem noWait_returns_submission_hash (a : Account) (dest : String) (value : Nat)
    (data : String) (key : String) (submissionHash : H256) :
    a.balanceTransferNoWait dest value submissionHash = submissionHash ∧
    a.submitDataNoWait data submissionHash = submissionHash ∧
    a.createApplicationKeyNoWait key submissionHash = submissionHash :=
  ⟨rfl, rfl, rfl⟩

/-- C3: Each mutator setNonce, setAppId, setTip, setWaitFor sets exactly its
own stored default and leaves the other three defaults, the keyring and the
sdk reference unchanged; the new value is read back by buildOptions at the
next call (and for setWaitFor, a subsequent submitData delegates with the new
wait policy). -/
theorem mutators_frame (a : Account) (n i t : Option Nat) (w : WaitFor)
    (data : String) (resp : ChainResponse) :
    ((a.setNonce n).nonce = n ∧ (a.setNonce n).appId = a.appId ∧
      (a.setNonce n).tip = a.tip ∧ (a.setNonce n).waitFor = a.waitFor ∧
      (a.setNonce n).keyring = a.keyring ∧ (a.setNonce n).sdk = a.sdk ∧
      (a.setNonce n).buildOptions.nonce = n) ∧
    ((a.setAppId i).appId = i ∧ (a.setAppId i).nonce = a.nonce ∧
      (a.setAppId i).tip = a.tip ∧ (a.setAppId i).waitFor = a.waitFor ∧
      (a.setAppId i).keyring = a.keyring ∧ (a.setAppId i).sdk = a.sdk ∧
      (a.setAppId i).buildOptions.app_id = i) ∧
    ((a.setTip t).tip = t ∧ (a.setTip t).nonce = a.nonce ∧
      (a.setTip t).appId = a.appId ∧ (a.setTip t).waitFor = a.waitFor ∧
      (a.setTip t).keyring = a.keyring ∧ (a.setTip t).sdk = a.sdk ∧
      (a.setTip t).buildOptions.tip = t) ∧
    ((a.setWaitFor w).waitFor = w ∧ (a.setWaitFor w).nonce = a.nonce ∧
      (a.setWaitFor w).appId = a.appId ∧ (a.setWaitFor w).tip = a.tip ∧
      (a.setWaitFor w).keyring = a.keyring ∧ (a.setWaitFor w).sdk = a.sdk ∧
      (a.setWaitFor w).submitData data resp =
        a.sdk.tx.dataAvailability.submitData data w a.keyring a.buildOptions resp) :=
  ⟨⟨rfl, rfl, rfl, rfl, rfl, rfl, buildOptions_nonce (a.setNonce n)⟩,
   ⟨rfl, rfl, rfl, rfl, rfl, rfl, buildOptions_app_id (a.setAppId i)⟩,
   ⟨rfl, rfl, rfl, rfl, rfl, rfl, buildOptions_tip (a.setTip t)⟩,
   ⟨rfl, rfl, rfl, rfl, rfl, rfl, rfl⟩⟩

/-- C4: Every Account operation delegates to the underlying Transactions
component with the stored wait policy, the bound keyring and the options
built from the stored defaults; and the built options carry exactly the
stored nonce, application id and tip (a non-null stored default appears
unchanged, a null one is absent). -/
theorem account_ops_delegate (a : Account) (dest : String) (value : Nat)
    (data : String) (key : String) (resp : ChainResponse) (submissionHash : H256) :
    a.balanceTransfer dest value resp =
      a.sdk.tx.balances.transferKeepAlive dest value a.waitFor a.keyring a.buildOptions resp ∧
    a.submitData data resp =
      a.sdk.tx.dataAvailability.submitData data a.waitFor a.keyring a.buildOptions resp ∧
    a.createApplicationKey key resp =
      a.sdk.tx.dataAvailability.createApplicationKey key a.waitFor a.keyring a.buildOptions resp ∧
    a.balanceTransferNoWait dest value submissionHash =
      a.sdk.tx.balances.transferKeepAliveNoWait dest value a.keyring a.buildOptions
        submissionHash ∧
    a.submitDataNoWait data submissionHash =
      a.sdk.tx.dataAvailability.submitDataNoWait data a.keyring a.buildOptions submissionHash ∧
    a.createApplicationKeyNoWait key submissionHash =
      a.sdk.tx.dataAvailability.createApplicationKeyNoWait key a.keyring a.buildOptions
        submissionHash ∧
    a.buildOptions = a.specStoredOptions :=
  ⟨rfl, rfl, rfl, rfl, rfl, rfl, buildOptions_eq_spec a⟩

/-- C5: On every transaction result, findFirstEvent returns the first decoded
event of the requested kind (the head of the matching events in emission
order), and when no event of that kind is present it returns the null
indicator none instead of failing. -/
theorem findFirstEvent_first_match (d : TxResultDetails) (kind : String) :
    d.findFirstEvent kind = (d.events.filter (fun e => e.kind == kind)).head? ∧
    (d.findFirstEvent kind = none ↔ ∀ e ∈ d.events, (e.kind == kind) = false) := by
  constructor
  · exact find?_eq_filter_head _ _
  · rw [TxResultDetails.findFirstEvent, List.find?_eq_none]
    simp

/-- C6: Every read-only utility query (getNonceState, getNonceNode,
getAppKeys, getAppIds, Account.getBalance) leaves the connection and chain
state unchanged, a repeated call against the unchanged state returns the
identical result, and the query succeeds exactly when the connection is up:
the only possible failure is a connection error. -/
theorem utility_queries_readonly (a : Account) (c : Connection) (addr : String) :
    ((getNonceState c addr).2 = c ∧ (getNonceNode c addr).2 = c ∧
      (getAppKeys c addr).2 = c ∧ (getAppIds c addr).2 = c ∧ (a.getBalance c).2 = c) ∧
    ((getNonceState c addr).1 = (getNonceState (getNonceState c addr).2 addr).1 ∧
      (getNonceNode c addr).1 = (getNonceNode (getNonceNode c addr).2 addr).1 ∧
      (getAppKeys c addr).1 = (getAppKeys (getAppKeys c addr).2 addr).1 ∧
      (getAppIds c addr).1 = (getAppIds (getAppIds c addr).2 addr).1 ∧
      (a.getBalance c).1 = (a.getBalance (a.getBalance c).2).1) ∧
    ((queryOk (getNonceState c addr).1 = true ↔ c.up = true) ∧
      (queryOk (getNonceNode c addr).1 = true ↔ c.up = true) ∧
      (queryOk (getAppKeys c addr).1 = true ↔ c.up = true) ∧
      (queryOk (getAppIds c addr).1 = true ↔ c.up = true) ∧
      (queryOk (a.getBalance c).1 = true ↔ c.up = true)) := by
  rcases c with ⟨up, st⟩
  cases up <;>
    simp [getNonceState, getNonceNode, getAppKeys, getAppIds, Account.getBalance, queryOk]

/-- C7: For every data payload whose length fits the length field, encoding
the submitData call and then decoding the emitted data-submitted event for a
successful submission reproduces the call arguments: the decoded data is the
submitted data and the event's reported length equals the submitted data's
length. -/
theorem submitData_roundtrip (data : List Nat) (h : data.length < 4294967296) :
    decodeSubmitData (encodeSubmitData data) = some data ∧
    daEmittedEvent (encodeSubmitData data) =
      some { kind := dataSubmittedKind, dataLength := some data.length } := by
  have hl : data.length % 256 + 256 * (data.length / 256 % 256) +
      65536 * (data.length / 65536 % 256) +
      16777216 * (data.length / 16777216 % 256) = data.length := by
    omega
  have hdec : decodeSubmitData (encodeSubmitData data) = some data := by
    simp [encodeSubmitData, encodeLen, decodeSubmitData, daPalletIndex,
      submitDataCallIndex, hl]
  exact ⟨hdec, by simp [daEmittedEvent, hdec]⟩

/-- Witness for C7: the round trip evaluated on the concrete payload
bytes 1, 2, 3. -/
theorem submitData_roundtrip_witness :
    ([1, 2, 3] : List Nat).length < 4294967296 ∧
    (decodeSubmitData (encodeSubmitData [1, 2, 3]) = some [1, 2, 3] ∧
      daEmittedEvent (encodeSubmitData [1, 2, 3]) =
        some { kind := dataSubmittedKind, dataLength := some ([1, 2, 3] : List Nat).length }) :=
  ⟨by decide, submitData_roundtrip [1, 2, 3] (by decide)⟩

/-- C8: A freshly constructed Account has wait policy BlockInclusion and null
stored nonce, appId and tip, and before any mutator is called buildOptions
returns the empty TransactionOptions object, leaving all choices to the
node/runtime. -/
theorem fresh_account_defaults (sdk : SDK) (keyring : KeyringPair) :
    (Account.new sdk keyring).waitFor = WaitFor.BlockInclusion ∧
    (Account.new sdk keyring).nonce = none ∧
    (Account.new sdk keyring).appId = none ∧
    (Account.new sdk keyring).tip = none ∧
    (Account.new sdk keyring).buildOptions = TransactionOptions.empty :=
  ⟨rfl, rfl, rfl, rfl, rfl⟩

/-- C9: SDK.oneAvail is exactly the integer 10^18, and Account.oneAvail
returns the same value for every Account instance. -/
theorem oneAvail_value :
    SDK.oneAvail = 1000000000000000000 ∧ ∀ a : Account, a.oneAvail = SDK.oneAvail := by
  constructor
  · norm_num [SDK.oneAvail]
  · intro a
    rfl

/-- C10: SDK.New opens exactly one connection (the allocation counter
advances by one), and the resulting instance's api field, its Transactions
component and all its sub-components, and its Utils component hold that same
single connection. -/
theorem sdk_new_single_connection (endpoint : String) (st : ConnState) :
    (SDK.New endpoint st).2.nextConnId = st.nextConnId + 1 ∧
    (SDK.New endpoint st).1.api = (connect endpoint st).1 ∧
    (SDK.New endpoint st).1.tx.api = (SDK.New endpoint st).1.api ∧
    (SDK.New endpoint st).1.util.api = (SDK.New endpoint st).1.api ∧
    (SDK.New endpoint st).1.tx.balances.api = (SDK.New endpoint st).1.api ∧
    (SDK.New endpoint st).1.tx.dataAvailability.api = (SDK.New endpoint st).1.api :=
  ⟨rfl, rfl, rfl, rfl, rfl, rfl⟩

end Avail

